import Mathlib

/-
Verification of `create-icons.py` (Loadopoly-OCR).

The script is a one-shot icon generator:
  os.makedirs('public/icons', exist_ok=True)
  base_icon = Image.open('public/icon-192.png')
  for size in [16, 32, 48, 128]:
      resized = base_icon.resize((size, size), Image.Resampling.LANCZOS)
      resized.save(f'public/icons/icon-{size}.png')
      print(f'Created .. icon-{size}.png')
  resized_64 = base_icon.resize((64, 64), Image.Resampling.LANCZOS)
  resized_64.save('public/icons/icon-64.png')
  print('Created .. icon-64.png')

We embed it shallowly: the filesystem is an explicit state, the PIL
library calls (LANCZOS resampling, PNG encoding/decoding) are
deterministic function parameters gathered in `Config`, and the run is a
pure function from the initial world to (error?, final world, event trace).
-/

namespace CreateIcons

/-- A decoded in-memory bitmap: dimensions plus abstract pixel data. -/
structure Bitmap where
  width : Nat
  height : Nat
  data : List Nat
deriving DecidableEq

/-- The deterministic imaging-library functions the script calls into:
the LANCZOS resampling filter (computing the pixel data of a resize),
the PNG encoder used by `save`, and the PNG decoder used by `open`. -/
structure Config where
  lanczos : Bitmap → Nat → Nat → List Nat
  encodePNG : Bitmap → List Nat
  decodePNG : List Nat → Option Bitmap

/-- PIL `img.resize((w, h), filter)`: returns a new image of exactly the
requested dimensions, whose pixel data is computed by the filter. -/
def pilResize (filter : Bitmap → Nat → Nat → List Nat) (img : Bitmap)
    (w h : Nat) : Bitmap :=
  ⟨w, h, filter img w h⟩

/-- Observable effects of the run, in order. -/
inductive Event where
  | mkdirEv : String → Event
  | readEv : String → Event
  | writeEv : String → List Nat → Event
  | printEv : String → Event
deriving DecidableEq

/-- The filesystem state the script interacts with: the set of existing
directories, the file contents (raw bytes, as an optional byte list per
path), and which paths the OS will let us write (a failed write raises). -/
structure World where
  dirs : List String
  files : String → Option (List Nat)
  writable : String → Bool

/-- Update the file map at one path. -/
def setFile (f : String → Option (List Nat)) (p : String) (c : List Nat) :
    String → Option (List Nat) :=
  fun q => if q = p then some c else f q

/-- The fixed output directory `public/icons`. -/
def iconsDir : String := "public/icons"

/-- The fixed source path `public/icon-192.png`. -/
def basePath : String := "public/icon-192.png"

/-- Output path for a given size: `public/icons/icon-<size>.png`. -/
def savePath (size : Nat) : String :=
  "public/icons/icon-" ++ toString size ++ ".png"

/-- Confirmation line printed after each save. -/
def confirmMsg (size : Nat) : String :=
  "✓ Created public/icons/icon-" ++ toString size ++ ".png"

/-- `os.makedirs(p, exist_ok=True)`: create the directory if absent; if it
already exists this is a no-op and raises no error. Files are untouched. -/
def makedirs (w : World) (p : String) : World :=
  if p ∈ w.dirs then w else { w with dirs := p :: w.dirs }

/-- The two fatal error classes of the script: `Image.open` failing
(missing or undecodable source) and a failed `save`. -/
inductive RErr where
  | loadError : RErr
  | saveError : String → RErr
deriving DecidableEq

/-- The size list of the `for` loop (line 11 of the source). -/
def sizes : List Nat := [16, 32, 48, 128]

/-- The order in which the script actually processes sizes: the loop
sizes followed by the separate 64x64 step. -/
def execOrder : List Nat := sizes ++ [64]

/-- The bytes the script writes for a given size: the PNG encoding of the
LANCZOS resize of the base image to size x size. -/
def expectedContent (cfg : Config) (b : Bitmap) (s : Nat) : List Nat :=
  cfg.encodePNG (pilResize cfg.lanczos b s s)

/-- The `for size in sizes` loop: resize, save (a non-writable path makes
`save` raise, aborting with `saveError`), print a confirmation. -/
def runLoop (cfg : Config) (base : Bitmap) :
    List Nat → World → List Event → Option RErr × World × List Event
  | [], w, tr => (none, w, tr)
  | s :: rest, w, tr =>
    let resized := pilResize cfg.lanczos base s s
    let bytes := cfg.encodePNG resized
    let p := savePath s
    if w.writable p then
      runLoop cfg base rest { w with files := setFile w.files p bytes }
        (tr ++ [Event.writeEv p bytes, Event.printEv (confirmMsg s)])
    else (some (RErr.saveError p), w, tr)

/-- The whole script: makedirs, Image.open (fails with `loadError` if the
source file is missing or does not decode), the loop over `sizes`, then
the separate 64x64 resize-and-save step of lines 17-20. -/
def createIcons (cfg : Config) (w0 : World) :
    Option RErr × World × List Event :=
  let w1 := makedirs w0 iconsDir
  let tr1 : List Event := [Event.mkdirEv iconsDir]
  match w1.files basePath with
  | none => (some RErr.loadError, w1, tr1)
  | some bs =>
    let tr2 := tr1 ++ [Event.readEv basePath]
    match cfg.decodePNG bs with
    | none => (some RErr.loadError, w1, tr2)
    | some base_icon =>
      match runLoop cfg base_icon sizes w1 tr2 with
      | (some e, w, tr) => (some e, w, tr)
      | (none, w, tr) =>
        let resized_64 := pilResize cfg.lanczos base_icon 64 64
        let bytes64 := cfg.encodePNG resized_64
        let p64 := savePath 64
        if w.writable p64 then
          (none, { w with files := setFile w.files p64 bytes64 },
            tr ++ [Event.writeEv p64 bytes64, Event.printEv (confirmMsg 64)])
        else (some (RErr.saveError p64), w, tr)

/-- Alternative structure from the claim C10: one single loop over
[16, 32, 48, 64, 128] with the identical resize-and-save body. -/
def createIconsUnified (cfg : Config) (w0 : World) :
    Option RErr × World × List Event :=
  let w1 := makedirs w0 iconsDir
  let tr1 : List Event := [Event.mkdirEv iconsDir]
  match w1.files basePath with
  | none => (some RErr.loadError, w1, tr1)
  | some bs =>
    let tr2 := tr1 ++ [Event.readEv basePath]
    match cfg.decodePNG bs with
    | none => (some RErr.loadError, w1, tr2)
    | some base_icon => runLoop cfg base_icon [16, 32, 48, 64, 128] w1 tr2

/-- Paths of the write events of a trace, in order. -/
def writtenPaths (tr : List Event) : List String :=
  tr.filterMap fun e => match e with
    | Event.writeEv p _ => some p
    | _ => none

/-- Lines printed by a trace, in order. -/
def printedLines (tr : List Event) : List String :=
  tr.filterMap fun e => match e with
    | Event.printEv s => some s
    | _ => none

/-- Paths of the read events of a trace, in order. -/
def readPaths (tr : List Event) : List String :=
  tr.filterMap fun e => match e with
    | Event.readEv p => some p
    | _ => none

/-- The five output paths. -/
def outputPaths : List String :=
  [savePath 16, savePath 32, savePath 48, savePath 64, savePath 128]

/-- Final world of a run that completes without error. -/
def successWorld (cfg : Config) (b : Bitmap) (w : World) : World :=
  { makedirs w iconsDir with
    files := setFile (setFile (setFile (setFile (setFile
      (makedirs w iconsDir).files
      (savePath 16) (expectedContent cfg b 16))
      (savePath 32) (expectedContent cfg b 32))
      (savePath 48) (expectedContent cfg b 48))
      (savePath 128) (expectedContent cfg b 128))
      (savePath 64) (expectedContent cfg b 64) }

/-- Trace of a run that completes without error. -/
def successTrace (cfg : Config) (b : Bitmap) : List Event :=
  [Event.mkdirEv iconsDir, Event.readEv basePath,
   Event.writeEv (savePath 16) (expectedContent cfg b 16),
   Event.printEv (confirmMsg 16),
   Event.writeEv (savePath 32) (expectedContent cfg b 32),
   Event.printEv (confirmMsg 32),
   Event.writeEv (savePath 48) (expectedContent cfg b 48),
   Event.printEv (confirmMsg 48),
   Event.writeEv (savePath 128) (expectedContent cfg b 128),
   Event.printEv (confirmMsg 128),
   Event.writeEv (savePath 64) (expectedContent cfg b 64),
   Event.printEv (confirmMsg 64)]

lemma makedirs_files (w : World) (p : String) :
    (makedirs w p).files = w.files := by
  unfold makedirs; split <;> rfl

lemma makedirs_writable (w : World) (p : String) :
    (makedirs w p).writable = w.writable := by
  unfold makedirs; split <;> rfl

lemma makedirs_mem (w : World) (p : String) : p ∈ (makedirs w p).dirs := by
  unfold makedirs; split
  · assumption
  · exact List.mem_cons_self p w.dirs

lemma makedirs_of_mem (w : World) (p : String) (h : p ∈ w.dirs) :
    makedirs w p = w := by
  unfold makedirs; simp [h]

/-- Characterization of a run that loads successfully and finds every
output path writable: it succeeds with the explicit final world and trace. -/
lemma run_success (cfg : Config) (w : World) (bs : List Nat) (b : Bitmap)
    (h1 : w.files basePath = some bs)
    (h2 : cfg.decodePNG bs = some b)
    (h3 : ∀ s ∈ execOrder, w.writable (savePath s) = true) :
    createIcons cfg w = (none, successWorld cfg b w, successTrace cfg b) := by
  have hw16 := h3 16 (by decide)
  have hw32 := h3 32 (by decide)
  have hw48 := h3 48 (by decide)
  have hw128 := h3 128 (by decide)
  have hw64 := h3 64 (by decide)
  simp only [createIcons, runLoop, sizes, makedirs_files, makedirs_writable,
    h1, h2, hw16, hw32, hw48, hw128, hw64, if_true,
    successWorld, successTrace, expectedContent]
  rfl

/-- Characterization of a run whose source file is missing. -/
lemma run_load_missing (cfg : Config) (w : World)
    (h : w.files basePath = none) :
    createIcons cfg w =
      (some RErr.loadError, makedirs w iconsDir, [Event.mkdirEv iconsDir]) := by
  simp only [createIcons, makedirs_files, h]

/-- Characterization of a run whose source file exists but does not decode. -/
lemma run_load_undecodable (cfg : Config) (w : World) (bs : List Nat)
    (h1 : w.files basePath = some bs)
    (h2 : cfg.decodePNG bs = none) :
    createIcons cfg w =
      (some RErr.loadError, makedirs w iconsDir,
        [Event.mkdirEv iconsDir, Event.readEv basePath]) := by
  simp only [createIcons, makedirs_files, h1, h2]
  rfl

/-- Characterization of a run where the very first save (size 16) fails. -/
lemma run_fail16 (cfg : Config) (w : World) (bs : List Nat) (b : Bitmap)
    (h1 : w.files basePath = some bs)
    (h2 : cfg.decodePNG bs = some b)
    (hw : w.writable (savePath 16) = false) :
    createIcons cfg w =
      (some (RErr.saveError (savePath 16)), makedirs w iconsDir,
        [Event.mkdirEv iconsDir, Event.readEv basePath]) := by
  simp only [createIcons, runLoop, sizes, makedirs_files, makedirs_writable,
    h1, h2, hw]
  rfl

/-- Characterization of a run where the save for size 32 fails. -/
lemma run_fail32 (cfg : Config) (w : World) (bs : List Nat) (b : Bitmap)
    (h1 : w.files basePath = some bs)
    (h2 : cfg.decodePNG bs = some b)
    (hw16 : w.writable (savePath 16) = true)
    (hw : w.writable (savePath 32) = false) :
    createIcons cfg w =
      (some (RErr.saveError (savePath 32)),
        { makedirs w iconsDir with
          files := setFile (makedirs w iconsDir).files
            (savePath 16) (expectedContent cfg b 16) },
        [Event.mkdirEv iconsDir, Event.readEv basePath,
         Event.writeEv (savePath 16) (expectedContent cfg b 16),
         Event.printEv (confirmMsg 16)]) := by
  simp only [createIcons, runLoop, sizes, makedirs_files, makedirs_writable,
    h1, h2, hw16, hw, if_true, expectedContent]
  rfl

/-- Characterization of a run where the save for size 48 fails. -/
lemma run_fail48 (cfg : Config) (w : World) (bs : List Nat) (b : Bitmap)
    (h1 : w.files basePath = some bs)
    (h2 : cfg.decodePNG bs = some b)
    (hw16 : w.writable (savePath 16) = true)
    (hw32 : w.writable (savePath 32) = true)
    (hw : w.writable (savePath 48) = false) :
    createIcons cfg w =
      (some (RErr.saveError (savePath 48)),
        { makedirs w iconsDir with
          files := setFile (setFile (makedirs w iconsDir).files
            (savePath 16) (expectedContent cfg b 16))
            (savePath 32) (expectedContent cfg b 32) },
        [Event.mkdirEv iconsDir, Event.readEv basePath,
         Event.writeEv (savePath 16) (expectedContent cfg b 16),
         Event.printEv (confirmMsg 16),
         Event.writeEv (savePath 32) (expectedContent cfg b 32),
         Event.printEv (confirmMsg 32)]) := by
  simp only [createIcons, runLoop, sizes, makedirs_files, makedirs_writable,
    h1, h2, hw16, hw32, hw, if_true, expectedContent]
  rfl

/-- Characterization of a run where the save for size 128 fails. -/
lemma run_fail128 (cfg : Config) (w : World) (bs : List Nat) (b : Bitmap)
    (h1 : w.files basePath = some bs)
    (h2 : cfg.decodePNG bs = some b)
    (hw16 : w.writable (savePath 16) = true)
    (hw32 : w.writable (savePath 32) = true)
    (hw48 : w.writable (savePath 48) = true)
    (hw : w.writable (savePath 128) = false) :
    createIcons cfg w =
      (some (RErr.saveError (savePath 128)),
        { makedirs w iconsDir with
          files := setFile (setFile (setFile (makedirs w iconsDir).files
            (savePath 16) (expectedContent cfg b 16))
            (savePath 32) (expectedContent cfg b 32))
            (savePath 48) (expectedContent cfg b 48) },
        [Event.mkdirEv iconsDir, Event.readEv basePath,
         Event.writeEv (savePath 16) (expectedContent cfg b 16),
         Event.printEv (confirmMsg 16),
         Event.writeEv (savePath 32) (expectedContent cfg b 32),
         Event.printEv (confirmMsg 32),
         Event.writeEv (savePath 48) (expectedContent cfg b 48),
         Event.printEv (confirmMsg 48)]) := by
  simp only [createIcons, runLoop, sizes, makedirs_files, makedirs_writable,
    h1, h2, hw16, hw32, hw48, hw, if_true, expectedContent]
  rfl

/-- Characterization of a run where the separate 64x64 save fails. -/
lemma run_fail64 (cfg : Config) (w : World) (bs : List Nat) (b : Bitmap)
    (h1 : w.files basePath = some bs)
    (h2 : cfg.decodePNG bs = some b)
    (hw16 : w.writable (savePath 16) = true)
    (hw32 : w.writable (savePath 32) = true)
    (hw48 : w.writable (savePath 48) = true)
    (hw128 : w.writable (savePath 128) = true)
    (hw : w.writable (savePath 64) = false) :
    createIcons cfg w =
      (some (RErr.saveError (savePath 64)),
        { makedirs w iconsDir with
          files := setFile (setFile (setFile (setFile (makedirs w iconsDir).files
            (savePath 16) (expectedContent cfg b 16))
            (savePath 32) (expectedContent cfg b 32))
            (savePath 48) (expectedContent cfg b 48))
            (savePath 128) (expectedContent cfg b 128) },
        [Event.mkdirEv iconsDir, Event.readEv basePath,
         Event.writeEv (savePath 16) (expectedContent cfg b 16),
         Event.printEv (confirmMsg 16),
         Event.writeEv (savePath 32) (expectedContent cfg b 32),
         Event.printEv (confirmMsg 32),
         Event.writeEv (savePath 48) (expectedContent cfg b 48),
         Event.printEv (confirmMsg 48),
         Event.writeEv (savePath 128) (expectedContent cfg b 128),
         Event.printEv (confirmMsg 128)]) := by
  simp only [createIcons, runLoop, sizes, makedirs_files, makedirs_writable,
    h1, h2, hw16, hw32, hw48, hw128, hw, if_true, expectedContent]
  rfl

/-- Inversion: a run that completes without error had a decodable source
file and found every output path writable. -/
lemma success_inv (cfg : Config) (w : World)
    (h : (createIcons cfg w).1 = none) :
    ∃ bs b, w.files basePath = some bs ∧ cfg.decodePNG bs = some b ∧
      ∀ s ∈ execOrder, w.writable (savePath s) = true := by
  rcases hbs : w.files basePath with _ | bs
  · rw [run_load_missing cfg w hbs] at h; exact absurd h (by simp)
  rcases hb : cfg.decodePNG bs with _ | b
  · rw [run_load_undecodable cfg w bs hbs hb] at h; exact absurd h (by simp)
  refine ⟨bs, b, by simp [hbs], by simp [hb], ?_⟩
  rcases h16 : w.writable (savePath 16) with _ | _
  · rw [run_fail16 cfg w bs b hbs hb h16] at h; exact absurd h (by simp)
  rcases h32 : w.writable (savePath 32) with _ | _
  · rw [run_fail32 cfg w bs b hbs hb h16 h32] at h; exact absurd h (by simp)
  rcases h48 : w.writable (savePath 48) with _ | _
  · rw [run_fail48 cfg w bs b hbs hb h16 h32 h48] at h; exact absurd h (by simp)
  rcases h128 : w.writable (savePath 128) with _ | _
  · rw [run_fail128 cfg w bs b hbs hb h16 h32 h48 h128] at h
    exact absurd h (by simp)
  rcases h64 : w.writable (savePath 64) with _ | _
  · rw [run_fail64 cfg w bs b hbs hb h16 h32 h48 h128 h64] at h
    exact absurd h (by simp)
  intro s hs
  fin_cases hs <;> assumption

lemma setFile_same (f : String → Option (List Nat)) (p : String)
    (c : List Nat) : setFile f p c p = some c := by
  simp [setFile]

lemma setFile_other (f : String → Option (List Nat)) (p : String)
    (c : List Nat) (q : String) (h : q ≠ p) : setFile f p c q = f q := by
  simp [setFile, h]

/-- Each output file of a successful run holds the expected PNG bytes. -/
lemma successWorld_files (cfg : Config) (b : Bitmap) (w : World) :
    ∀ s ∈ execOrder,
      (successWorld cfg b w).files (savePath s) =
        some (expectedContent cfg b s) := by
  intro s hs
  fin_cases hs <;>
    simp only [successWorld] <;>
    first
    | rw [setFile_same]
    | rw [setFile_other _ _ _ _ (by decide), setFile_same]
    | rw [setFile_other _ _ _ _ (by decide),
          setFile_other _ _ _ _ (by decide), setFile_same]
    | rw [setFile_other _ _ _ _ (by decide),
          setFile_other _ _ _ _ (by decide),
          setFile_other _ _ _ _ (by decide), setFile_same]
    | rw [setFile_other _ _ _ _ (by decide),
          setFile_other _ _ _ _ (by decide),
          setFile_other _ _ _ _ (by decide),
          setFile_other _ _ _ _ (by decide), setFile_same]

/-- A successful run leaves every non-output path untouched. -/
lemma successWorld_files_other (cfg : Config) (b : Bitmap) (w : World)
    (p : String) (h : p ∉ outputPaths) :
    (successWorld cfg b w).files p = w.files p := by
  simp only [outputPaths, List.mem_cons, List.not_mem_nil, or_false,
    not_or] at h
  obtain ⟨h16, h32, h48, h64, h128⟩ := h
  simp only [successWorld]
  rw [setFile_other _ _ _ _ h64, setFile_other _ _ _ _ h128,
    setFile_other _ _ _ _ h48, setFile_other _ _ _ _ h32,
    setFile_other _ _ _ _ h16, makedirs_files]

/-- The write events of a successful run, size by size. -/
lemma successTrace_mem (cfg : Config) (b : Bitmap) :
    ∀ s ∈ execOrder,
      Event.writeEv (savePath s) (expectedContent cfg b s) ∈
        successTrace cfg b := by
  intro s hs
  fin_cases hs <;> simp [successTrace]

/-- A sample deterministic imaging library: bitmaps encode as
width :: height :: data and decode back. -/
def cfgA : Config :=
  { lanczos := fun b w h => [b.width, b.height, w, h]
    encodePNG := fun b => b.width :: b.height :: b.data
    decodePNG := fun bs =>
      match bs with
      | w :: h :: rest => some ⟨w, h, rest⟩
      | _ => none }

/-- A world holding only a valid 192x192 source file, fully writable. -/
def worldA : World :=
  { dirs := []
    files := fun p => if p = basePath then some [192, 192] else none
    writable := fun _ => true }

/-- Like `worldA` but the 64x64 output path is not writable. -/
def worldB : World :=
  { dirs := []
    files := fun p => if p = basePath then some [192, 192] else none
    writable := fun p => if p = savePath 64 then false else true }

/-- A world with no files at all (in particular no source image). -/
def worldEmpty : World :=
  { dirs := []
    files := fun _ => none
    writable := fun _ => true }

/-- Like `worldA` but the output directory already exists and holds an
unrelated pre-existing file. -/
def worldC : World :=
  { dirs := [iconsDir]
    files := fun p =>
      if p = basePath then some [192, 192]
      else if p = "public/icons/stale.png" then some [7] else none
    writable := fun _ => true }

lemma execOrder_of_claimOrder {s : Nat}
    (hs : s ∈ ([16, 32, 48, 64, 128] : List Nat)) : s ∈ execOrder := by
  fin_cases hs <;> decide

/-- C1: for every size in {16, 32, 48, 64, 128}, after a run that
completes without error, the file `public/icons/icon-<size>.png` has been
written, and the bitmap written to it has width and height exactly that
size. -/
theorem spec_c1_output_dimensions (cfg : Config) (w : World)
    (h : (createIcons cfg w).1 = none) :
    ∀ s ∈ ([16, 32, 48, 64, 128] : List Nat),
      ∃ b : Bitmap, b.width = s ∧ b.height = s ∧
        Event.writeEv (savePath s) (cfg.encodePNG b) ∈
          (createIcons cfg w).2.2 ∧
        (createIcons cfg w).2.1.files (savePath s) =
          some (cfg.encodePNG b) := by
  obtain ⟨bs, b, hbs, hb, hw⟩ := success_inv cfg w h
  rw [run_success cfg w bs b hbs hb hw]
  intro s hs
  have hs' : s ∈ execOrder := execOrder_of_claimOrder hs
  exact ⟨pilResize cfg.lanczos b s s, rfl, rfl,
    successTrace_mem cfg b s hs', successWorld_files cfg b w s hs'⟩

theorem spec_c1_witness :
    (createIcons cfgA worldA).1 = none ∧
    ∀ s ∈ ([16, 32, 48, 64, 128] : List Nat),
      ∃ b : Bitmap, b.width = s ∧ b.height = s ∧
        Event.writeEv (savePath s) (cfgA.encodePNG b) ∈
          (createIcons cfgA worldA).2.2 ∧
        (createIcons cfgA worldA).2.1.files (savePath s) =
          some (cfgA.encodePNG b) :=
  ⟨by decide, spec_c1_output_dimensions cfgA worldA (by decide)⟩

/-- C2 counterexample: a run that completes without error writes the
sizes in the order 16, 32, 48, 128, 64 — not in the claimed order
[16, 32, 48, 64, 128] (64 is written last, after 128). -/
theorem spec_c2_counterexample :
    (createIcons cfgA worldA).1 = none ∧
    writtenPaths (createIcons cfgA worldA).2.2 =
      [savePath 16, savePath 32, savePath 48, savePath 128, savePath 64] ∧
    writtenPaths (createIcons cfgA worldA).2.2 ≠
      [savePath 16, savePath 32, savePath 48, savePath 64, savePath 128] :=
  ⟨by decide, by decide, by decide⟩

/-- C2 (amended): the resize-and-save steps run in strict sequential
order, but the order is [16, 32, 48, 128, 64] (the loop sizes followed by
the separate 64x64 step): for every run that completes without error,
the sequence of written paths and the sequence of confirmation messages
follow exactly that order. -/
theorem spec_c2_write_order (cfg : Config) (w : World)
    (h : (createIcons cfg w).1 = none) :
    writtenPaths (createIcons cfg w).2.2 =
      [savePath 16, savePath 32, savePath 48, savePath 128, savePath 64] ∧
    printedLines (createIcons cfg w).2.2 =
      [confirmMsg 16, confirmMsg 32, confirmMsg 48, confirmMsg 128,
       confirmMsg 64] := by
  obtain ⟨bs, b, hbs, hb, hw⟩ := success_inv cfg w h
  rw [run_success cfg w bs b hbs hb hw]
  exact ⟨rfl, rfl⟩

theorem spec_c2_witness :
    (createIcons cfgA worldA).1 = none ∧
    (writtenPaths (createIcons cfgA worldA).2.2 =
      [savePath 16, savePath 32, savePath 48, savePath 128, savePath 64] ∧
    printedLines (createIcons cfgA worldA).2.2 =
      [confirmMsg 16, confirmMsg 32, confirmMsg 48, confirmMsg 128,
       confirmMsg 64]) :=
  ⟨by decide, spec_c2_write_order cfgA worldA (by decide)⟩

/-- C3: if the base image is missing or undecodable, the run terminates
with the fatal load error, no file content changes, and no write or
confirmation message occurs. -/
theorem spec_c3_load_failure (cfg : Config) (w : World)
    (h : ∀ bs, w.files basePath = some bs → cfg.decodePNG bs = none) :
    (createIcons cfg w).1 = some RErr.loadError ∧
    (createIcons cfg w).2.1.files = w.files ∧
    writtenPaths (createIcons cfg w).2.2 = [] ∧
    printedLines (createIcons cfg w).2.2 = [] := by
  rcases hbs : w.files basePath with _ | bs
  · rw [run_load_missing cfg w hbs]
    exact ⟨rfl, makedirs_files w iconsDir, rfl, rfl⟩
  · rw [run_load_undecodable cfg w bs hbs (h bs hbs)]
    exact ⟨rfl, makedirs_files w iconsDir, rfl, rfl⟩

theorem spec_c3_witness :
    (∀ bs, worldEmpty.files basePath = some bs →
      cfgA.decodePNG bs = none) ∧
    ((createIcons cfgA worldEmpty).1 = some RErr.loadError ∧
    (createIcons cfgA worldEmpty).2.1.files = worldEmpty.files ∧
    writtenPaths (createIcons cfgA worldEmpty).2.2 = [] ∧
    printedLines (createIcons cfgA worldEmpty).2.2 = []) :=
  ⟨fun bs hbs => by exact absurd hbs (by simp [worldEmpty]),
   spec_c3_load_failure cfgA worldEmpty
     (fun bs hbs => by exact absurd hbs (by simp [worldEmpty]))⟩

/-- C8: even when the source image is missing and the run aborts with a
load error, the output directory has already been created (directory
creation precedes the image load; the trace of such a run is exactly the
mkdir event). -/
theorem spec_c8_dir_created_on_missing_source (cfg : Config) (w : World)
    (h : w.files basePath = none) :
    (createIcons cfg w).1 = some RErr.loadError ∧
    iconsDir ∈ (createIcons cfg w).2.1.dirs ∧
    (createIcons cfg w).2.2 = [Event.mkdirEv iconsDir] ∧
    (iconsDir ∉ w.dirs →
      (createIcons cfg w).2.1.dirs = iconsDir :: w.dirs) := by
  rw [run_load_missing cfg w h]
  refine ⟨rfl, makedirs_mem w iconsDir, rfl, fun hmem => ?_⟩
  simp [makedirs, hmem]

theorem spec_c8_witness :
    worldEmpty.files basePath = none ∧
    ((createIcons cfgA worldEmpty).1 = some RErr.loadError ∧
    iconsDir ∈ (createIcons cfgA worldEmpty).2.1.dirs ∧
    (createIcons cfgA worldEmpty).2.2 = [Event.mkdirEv iconsDir] ∧
    (iconsDir ∉ worldEmpty.dirs →
      (createIcons cfgA worldEmpty).2.1.dirs = iconsDir :: worldEmpty.dirs)) :=
  ⟨rfl, spec_c8_dir_created_on_missing_source cfgA worldEmpty rfl⟩

/-- C7 (two-run determinism): two runs under the same library functions,
on worlds holding the same source-file bytes, that both complete without
error, produce byte-for-byte identical contents for every output file. -/
theorem spec_c7_deterministic (cfg : Config) (w w' : World)
    (hsrc : w.files basePath = w'.files basePath)
    (h : (createIcons cfg w).1 = none)
    (h' : (createIcons cfg w').1 = none) :
    ∀ s ∈ ([16, 32, 48, 64, 128] : List Nat),
      (createIcons cfg w).2.1.files (savePath s) =
        (createIcons cfg w').2.1.files (savePath s) := by
  obtain ⟨bs, b, hbs, hb, hw⟩ := success_inv cfg w h
  obtain ⟨bs', b', hbs', hb', hw'⟩ := success_inv cfg w' h'
  have hbseq : bs = bs' := by
    have := hbs.symm.trans (hsrc.trans hbs')
    exact Option.some.inj this
  have hbeq : b = b' := by
    subst hbseq
    exact Option.some.inj (hb.symm.trans hb')
  subst hbseq hbeq
  rw [run_success cfg w bs b hbs hb hw,
    run_success cfg w' bs b hbs' hb' hw']
  intro s hs
  have hs' : s ∈ execOrder := execOrder_of_claimOrder hs
  rw [successWorld_files cfg b w s hs', successWorld_files cfg b w' s hs']

theorem spec_c7_witness :
    worldA.files basePath = worldC.files basePath ∧
    (createIcons cfgA worldA).1 = none ∧
    (createIcons cfgA worldC).1 = none ∧
    ∀ s ∈ ([16, 32, 48, 64, 128] : List Nat),
      (createIcons cfgA worldA).2.1.files (savePath s) =
        (createIcons cfgA worldC).2.1.files (savePath s) :=
  ⟨by decide, by decide, by decide,
   spec_c7_deterministic cfgA worldA worldC (by decide) (by decide)
     (by decide)⟩

/-- C9: on a run that completes without error, the base image is read
exactly once, and every written file is the PNG encoding of a resize
computed directly from the decoded base image (never from a previously
resized bitmap). -/
theorem spec_c9_base_read_once (cfg : Config) (w : World)
    (h : (createIcons cfg w).1 = none) :
    ∃ bs b, w.files basePath = some bs ∧ cfg.decodePNG bs = some b ∧
      readPaths (createIcons cfg w).2.2 = [basePath] ∧
      ∀ p c, Event.writeEv p c ∈ (createIcons cfg w).2.2 →
        ∃ s ∈ execOrder, p = savePath s ∧
          c = cfg.encodePNG (pilResize cfg.lanczos b s s) := by
  obtain ⟨bs, b, hbs, hb, hw⟩ := success_inv cfg w h
  refine ⟨bs, b, hbs, hb, ?_, ?_⟩ <;>
    rw [run_success cfg w bs b hbs hb hw]
  · rfl
  · intro p c hc
    simp only [successTrace, List.mem_cons, List.not_mem_nil, or_false,
      expectedContent] at hc
    rcases hc with h0 | h0 | h0 | h0 | h0 | h0 | h0 | h0 | h0 | h0 | h0 | h0
    · exact Event.noConfusion h0
    · exact Event.noConfusion h0
    · obtain ⟨hp, hcc⟩ := Event.writeEv.inj h0
      exact ⟨16, by decide, hp, hcc⟩
    · exact Event.noConfusion h0
    · obtain ⟨hp, hcc⟩ := Event.writeEv.inj h0
      exact ⟨32, by decide, hp, hcc⟩
    · exact Event.noConfusion h0
    · obtain ⟨hp, hcc⟩ := Event.writeEv.inj h0
      exact ⟨48, by decide, hp, hcc⟩
    · exact Event.noConfusion h0
    · obtain ⟨hp, hcc⟩ := Event.writeEv.inj h0
      exact ⟨128, by decide, hp, hcc⟩
    · exact Event.noConfusion h0
    · obtain ⟨hp, hcc⟩ := Event.writeEv.inj h0
      exact ⟨64, by decide, hp, hcc⟩
    · exact Event.noConfusion h0

theorem spec_c9_witness :
    (createIcons cfgA worldA).1 = none ∧
    ∃ bs b, worldA.files basePath = some bs ∧ cfgA.decodePNG bs = some b ∧
      readPaths (createIcons cfgA worldA).2.2 = [basePath] ∧
      ∀ p c, Event.writeEv p c ∈ (createIcons cfgA worldA).2.2 →
        ∃ s ∈ execOrder, p = savePath s ∧
          c = cfgA.encodePNG (pilResize cfgA.lanczos b s s) :=
  ⟨by decide, spec_c9_base_read_once cfgA worldA (by decide)⟩

lemma setFile_comm (f : String → Option (List Nat)) (p : String)
    (c : List Nat) (q : String) (d : List Nat) (h : p ≠ q) :
    setFile (setFile f p c) q d = setFile (setFile f q d) p c := by
  funext r
  simp only [setFile]
  by_cases hq : r = q
  · by_cases hp : r = p
    · exact absurd (hp.symm.trans hq) h
    · simp [hp, hq, Ne.symm h]
  · by_cases hp : r = p <;> simp [hp, hq, h]

/-- Characterization of the unified single-loop variant on a decodable,
fully writable world. -/
lemma run_success_unified (cfg : Config) (w : World) (bs : List Nat)
    (b : Bitmap)
    (h1 : w.files basePath = some bs)
    (h2 : cfg.decodePNG bs = some b)
    (h3 : ∀ s ∈ execOrder, w.writable (savePath s) = true) :
    createIconsUnified cfg w =
      (none,
       { makedirs w iconsDir with
         files := setFile (setFile (setFile (setFile (setFile
           (makedirs w iconsDir).files
           (savePath 16) (expectedContent cfg b 16))
           (savePath 32) (expectedContent cfg b 32))
           (savePath 48) (expectedContent cfg b 48))
           (savePath 64) (expectedContent cfg b 64))
           (savePath 128) (expectedContent cfg b 128) },
       [Event.mkdirEv iconsDir, Event.readEv basePath,
        Event.writeEv (savePath 16) (expectedContent cfg b 16),
        Event.printEv (confirmMsg 16),
        Event.writeEv (savePath 32) (expectedContent cfg b 32),
        Event.printEv (confirmMsg 32),
        Event.writeEv (savePath 48) (expectedContent cfg b 48),
        Event.printEv (confirmMsg 48),
        Event.writeEv (savePath 64) (expectedContent cfg b 64),
        Event.printEv (confirmMsg 64),
        Event.writeEv (savePath 128) (expectedContent cfg b 128),
        Event.printEv (confirmMsg 128)]) := by
  have hw16 := h3 16 (by decide)
  have hw32 := h3 32 (by decide)
  have hw48 := h3 48 (by decide)
  have hw128 := h3 128 (by decide)
  have hw64 := h3 64 (by decide)
  simp only [createIconsUnified, runLoop, makedirs_files, makedirs_writable,
    h1, h2, hw16, hw32, hw48, hw128, hw64, if_true, expectedContent]
  rfl

/-- C10: the split structure (loop over [16, 32, 48, 128], then a
separate 64x64 step) produces on every successful run the same output
files with the same contents as a single loop over [16, 32, 48, 64, 128]
with the identical body: the unified variant also succeeds, the final
file maps are equal, and the sets of written paths coincide. -/
theorem spec_c10_split_refines_unified (cfg : Config) (w : World)
    (h : (createIcons cfg w).1 = none) :
    ∃ w2 tr2, createIconsUnified cfg w = (none, w2, tr2) ∧
      (createIcons cfg w).2.1.files = w2.files ∧
      ∀ p, p ∈ writtenPaths (createIcons cfg w).2.2 ↔
        p ∈ writtenPaths tr2 := by
  obtain ⟨bs, b, hbs, hb, hw⟩ := success_inv cfg w h
  rw [run_success cfg w bs b hbs hb hw]
  rw [run_success_unified cfg w bs b hbs hb hw]
  refine ⟨_, _, rfl, ?_, ?_⟩
  · show (successWorld cfg b w).files = _
    simp only [successWorld]
    exact setFile_comm _ _ _ _ _ (by decide)
  · intro p
    show p ∈ writtenPaths (successTrace cfg b) ↔ _
    simp only [successTrace, writtenPaths, List.filterMap, List.mem_cons,
      List.not_mem_nil]
    constructor <;> intro hp <;> simp_all <;> tauto

theorem spec_c10_witness :
    (createIcons cfgA worldA).1 = none ∧
    ∃ w2 tr2, createIconsUnified cfgA worldA = (none, w2, tr2) ∧
      (createIcons cfgA worldA).2.1.files = w2.files ∧
      ∀ p, p ∈ writtenPaths (createIcons cfgA worldA).2.2 ↔
        p ∈ writtenPaths tr2 :=
  ⟨by decide, spec_c10_split_refines_unified cfgA worldA (by decide)⟩

lemma not_output_ne {p : String} (h : p ∉ outputPaths) :
    p ≠ savePath 16 ∧ p ≠ savePath 32 ∧ p ≠ savePath 48 ∧
    p ≠ savePath 64 ∧ p ≠ savePath 128 := by
  simp only [outputPaths, List.mem_cons, List.not_mem_nil, or_false,
    not_or] at h
  exact h

/-- C4 counterexample: in a run where saving the 64x64 icon fails, the
file for size 128 — a size strictly later than 64 in the claimed order
[16, 32, 48, 64, 128] — has already been written by the run (it was
absent beforehand). -/
theorem spec_c4_counterexample :
    (createIcons cfgA worldB).1 = some (RErr.saveError (savePath 64)) ∧
    worldB.files (savePath 128) = none ∧
    savePath 128 ∈ writtenPaths (createIcons cfgA worldB).2.2 ∧
    (createIcons cfgA worldB).2.1.files (savePath 128) ≠ none :=
  ⟨by decide, by decide, by decide, by decide⟩

/-- C4 (amended): any save failure aborts the remaining resize-and-save
steps with no retries and no partial-failure handling: when the save for
some size fails, no size strictly later in the execution order
[16, 32, 48, 128, 64] has its path written, and its file content is
unchanged from before the run. -/
theorem spec_c4_abort_on_save_failure (cfg : Config) (w : World)
    (q : String) (h : (createIcons cfg w).1 = some (RErr.saveError q)) :
    ∃ s ∈ execOrder, q = savePath s ∧
      ∀ t ∈ execOrder, execOrder.indexOf s < execOrder.indexOf t →
        savePath t ∉ writtenPaths (createIcons cfg w).2.2 ∧
        (createIcons cfg w).2.1.files (savePath t) =
          w.files (savePath t) := by
  rcases hbs : w.files basePath with _ | bs
  · rw [run_load_missing cfg w hbs] at h
    exact absurd h (by simp)
  rcases hb : cfg.decodePNG bs with _ | b
  · rw [run_load_undecodable cfg w bs hbs hb] at h
    exact absurd h (by simp)
  rcases h16 : w.writable (savePath 16) with _ | _
  · have hq : savePath 16 = q := by
      rw [run_fail16 cfg w bs b hbs hb h16] at h
      exact RErr.saveError.inj (Option.some.inj h)
    rw [run_fail16 cfg w bs b hbs hb h16]
    dsimp only
    refine ⟨16, by decide, hq.symm, ?_⟩
    intro t ht hlt
    fin_cases ht
    · exact absurd hlt (by decide)
    all_goals
      exact ⟨by decide, by rw [makedirs_files]⟩
  rcases h32 : w.writable (savePath 32) with _ | _
  · have hq : savePath 32 = q := by
      rw [run_fail32 cfg w bs b hbs hb h16 h32] at h
      exact RErr.saveError.inj (Option.some.inj h)
    rw [run_fail32 cfg w bs b hbs hb h16 h32]
    dsimp only
    refine ⟨32, by decide, hq.symm, ?_⟩
    intro t ht hlt
    fin_cases ht
    · exact absurd hlt (by decide)
    · exact absurd hlt (by decide)
    all_goals
      refine ⟨fun hmem => ?_,
        by rw [setFile_other _ _ _ _ (by decide), makedirs_files]⟩
      simp only [writtenPaths, List.filterMap_cons, List.filterMap_nil,
        List.mem_cons, List.not_mem_nil, or_false] at hmem
      exact absurd hmem (by decide)
  rcases h48 : w.writable (savePath 48) with _ | _
  · have hq : savePath 48 = q := by
      rw [run_fail48 cfg w bs b hbs hb h16 h32 h48] at h
      exact RErr.saveError.inj (Option.some.inj h)
    rw [run_fail48 cfg w bs b hbs hb h16 h32 h48]
    dsimp only
    refine ⟨48, by decide, hq.symm, ?_⟩
    intro t ht hlt
    fin_cases ht
    · exact absurd hlt (by decide)
    · exact absurd hlt (by decide)
    · exact absurd hlt (by decide)
    all_goals
      refine ⟨fun hmem => ?_,
        by rw [setFile_other _ _ _ _ (by decide),
          setFile_other _ _ _ _ (by decide), makedirs_files]⟩
      simp only [writtenPaths, List.filterMap_cons, List.filterMap_nil,
        List.mem_cons, List.not_mem_nil, or_false] at hmem
      exact absurd hmem (by decide)
  rcases h128 : w.writable (savePath 128) with _ | _
  · have hq : savePath 128 = q := by
      rw [run_fail128 cfg w bs b hbs hb h16 h32 h48 h128] at h
      exact RErr.saveError.inj (Option.some.inj h)
    rw [run_fail128 cfg w bs b hbs hb h16 h32 h48 h128]
    dsimp only
    refine ⟨128, by decide, hq.symm, ?_⟩
    intro t ht hlt
    fin_cases ht
    · exact absurd hlt (by decide)
    · exact absurd hlt (by decide)
    · exact absurd hlt (by decide)
    · exact absurd hlt (by decide)
    · refine ⟨fun hmem => ?_,
        by rw [setFile_other _ _ _ _ (by decide),
          setFile_other _ _ _ _ (by decide),
          setFile_other _ _ _ _ (by decide), makedirs_files]⟩
      simp only [writtenPaths, List.filterMap_cons, List.filterMap_nil,
        List.mem_cons, List.not_mem_nil, or_false] at hmem
      exact absurd hmem (by decide)
  rcases h64 : w.writable (savePath 64) with _ | _
  · have hq : savePath 64 = q := by
      rw [run_fail64 cfg w bs b hbs hb h16 h32 h48 h128 h64] at h
      exact RErr.saveError.inj (Option.some.inj h)
    rw [run_fail64 cfg w bs b hbs hb h16 h32 h48 h128 h64]
    dsimp only
    refine ⟨64, by decide, hq.symm, ?_⟩
    intro t ht hlt
    fin_cases ht <;> exact absurd hlt (by decide)
  · have hw : ∀ s ∈ execOrder, w.writable (savePath s) = true := by
      intro s hs; fin_cases hs <;> assumption
    rw [run_success cfg w bs b hbs hb hw] at h
    exact absurd h (by simp)

theorem spec_c4_witness :
    (createIcons cfgA worldB).1 =
      some (RErr.saveError (savePath 64)) ∧
    ∃ s ∈ execOrder, savePath 64 = savePath s ∧
      ∀ t ∈ execOrder, execOrder.indexOf s < execOrder.indexOf t →
        savePath t ∉ writtenPaths (createIcons cfgA worldB).2.2 ∧
        (createIcons cfgA worldB).2.1.files (savePath t) =
          worldB.files (savePath t) :=
  ⟨by decide,
   spec_c4_abort_on_save_failure cfgA worldB (savePath 64) (by decide)⟩

/-- C5: on any run, the output directory public/icons exists at the end
(created if absent), an already existing directory causes no failure and
the directory list is left unchanged, and no file outside the five
output paths is modified (in particular the directory is not emptied of
pre-existing files). -/
theorem spec_c5_output_directory (cfg : Config) (w : World) :
    iconsDir ∈ (createIcons cfg w).2.1.dirs ∧
    (iconsDir ∈ w.dirs → (createIcons cfg w).2.1.dirs = w.dirs) ∧
    ∀ p, p ∉ outputPaths → (createIcons cfg w).2.1.files p = w.files p := by
  rcases hbs : w.files basePath with _ | bs
  · rw [run_load_missing cfg w hbs]
    dsimp only
    refine ⟨makedirs_mem w iconsDir,
      fun hm => by rw [makedirs_of_mem w iconsDir hm],
      fun p hp => by rw [makedirs_files]⟩
  rcases hb : cfg.decodePNG bs with _ | b
  · rw [run_load_undecodable cfg w bs hbs hb]
    dsimp only
    refine ⟨makedirs_mem w iconsDir,
      fun hm => by rw [makedirs_of_mem w iconsDir hm],
      fun p hp => by rw [makedirs_files]⟩
  rcases h16 : w.writable (savePath 16) with _ | _
  · rw [run_fail16 cfg w bs b hbs hb h16]
    dsimp only
    refine ⟨makedirs_mem w iconsDir,
      fun hm => by rw [makedirs_of_mem w iconsDir hm],
      fun p hp => by rw [makedirs_files]⟩
  rcases h32 : w.writable (savePath 32) with _ | _
  · rw [run_fail32 cfg w bs b hbs hb h16 h32]
    dsimp only
    refine ⟨makedirs_mem w iconsDir,
      fun hm => by rw [makedirs_of_mem w iconsDir hm], fun p hp => ?_⟩
    obtain ⟨n16, n32, n48, n64, n128⟩ := not_output_ne hp
    rw [setFile_other _ _ _ _ n16, makedirs_files]
  rcases h48 : w.writable (savePath 48) with _ | _
  · rw [run_fail48 cfg w bs b hbs hb h16 h32 h48]
    dsimp only
    refine ⟨makedirs_mem w iconsDir,
      fun hm => by rw [makedirs_of_mem w iconsDir hm], fun p hp => ?_⟩
    obtain ⟨n16, n32, n48, n64, n128⟩ := not_output_ne hp
    rw [setFile_other _ _ _ _ n32, setFile_other _ _ _ _ n16,
      makedirs_files]
  rcases h128 : w.writable (savePath 128) with _ | _
  · rw [run_fail128 cfg w bs b hbs hb h16 h32 h48 h128]
    dsimp only
    refine ⟨makedirs_mem w iconsDir,
      fun hm => by rw [makedirs_of_mem w iconsDir hm], fun p hp => ?_⟩
    obtain ⟨n16, n32, n48, n64, n128⟩ := not_output_ne hp
    rw [setFile_other _ _ _ _ n48, setFile_other _ _ _ _ n32,
      setFile_other _ _ _ _ n16, makedirs_files]
  rcases h64 : w.writable (savePath 64) with _ | _
  · rw [run_fail64 cfg w bs b hbs hb h16 h32 h48 h128 h64]
    dsimp only
    refine ⟨makedirs_mem w iconsDir,
      fun hm => by rw [makedirs_of_mem w iconsDir hm], fun p hp => ?_⟩
    obtain ⟨n16, n32, n48, n64, n128⟩ := not_output_ne hp
    rw [setFile_other _ _ _ _ n128, setFile_other _ _ _ _ n48,
      setFile_other _ _ _ _ n32, setFile_other _ _ _ _ n16,
      makedirs_files]
  · have hw : ∀ s ∈ execOrder, w.writable (savePath s) = true := by
      intro s hs; fin_cases hs <;> assumption
    rw [run_success cfg w bs b hbs hb hw]
    exact ⟨makedirs_mem w iconsDir,
      fun hm => by
        show (successWorld cfg b w).dirs = w.dirs
        unfold successWorld
        dsimp only
        rw [makedirs_of_mem w iconsDir hm],
      fun p hp => successWorld_files_other cfg b w p hp⟩

theorem spec_c5_witness :
    iconsDir ∈ (createIcons cfgA worldC).2.1.dirs ∧
    (iconsDir ∈ worldC.dirs →
      (createIcons cfgA worldC).2.1.dirs = worldC.dirs) ∧
    ∀ p, p ∉ outputPaths →
      (createIcons cfgA worldC).2.1.files p = worldC.files p :=
  spec_c5_output_directory cfgA worldC

/-- C6: every read of the run targets the single source path
public/icon-192.png and every write targets one of the five icon output
paths; a run that completes without error reads exactly that one path
and writes exactly those five files. -/
theorem spec_c6_io_footprint (cfg : Config) (w : World) :
    (∀ p ∈ readPaths (createIcons cfg w).2.2, p = basePath) ∧
    (∀ p ∈ writtenPaths (createIcons cfg w).2.2, p ∈ outputPaths) ∧
    ((createIcons cfg w).1 = none →
      readPaths (createIcons cfg w).2.2 = [basePath] ∧
      ∀ p, p ∈ writtenPaths (createIcons cfg w).2.2 ↔ p ∈ outputPaths) := by
  rcases hbs : w.files basePath with _ | bs
  · rw [run_load_missing cfg w hbs]
    dsimp only
    exact ⟨fun p hp => absurd (show p ∈ ([] : List String) from hp)
        (List.not_mem_nil p),
      fun p hp => absurd (show p ∈ ([] : List String) from hp)
        (List.not_mem_nil p),
      fun hnone => absurd hnone (by simp)⟩
  rcases hb : cfg.decodePNG bs with _ | b
  · rw [run_load_undecodable cfg w bs hbs hb]
    dsimp only
    refine ⟨fun p hp => ?_,
      fun p hp => absurd (show p ∈ ([] : List String) from hp)
        (List.not_mem_nil p),
      fun hnone => absurd hnone (by simp)⟩
    have : p ∈ [basePath] := hp
    simpa using this
  rcases h16 : w.writable (savePath 16) with _ | _
  · rw [run_fail16 cfg w bs b hbs hb h16]
    dsimp only
    refine ⟨fun p hp => ?_,
      fun p hp => absurd (show p ∈ ([] : List String) from hp)
        (List.not_mem_nil p),
      fun hnone => absurd hnone (by simp)⟩
    have : p ∈ [basePath] := hp
    simpa using this
  rcases h32 : w.writable (savePath 32) with _ | _
  · rw [run_fail32 cfg w bs b hbs hb h16 h32]
    dsimp only
    refine ⟨fun p hp => ?_, fun p hp => ?_,
      fun hnone => absurd hnone (by simp)⟩
    · have : p ∈ [basePath] := hp
      simpa using this
    · simp only [writtenPaths, List.filterMap_cons, List.filterMap_nil,
        List.mem_cons, List.not_mem_nil, or_false] at hp
      subst hp
      decide
  rcases h48 : w.writable (savePath 48) with _ | _
  · rw [run_fail48 cfg w bs b hbs hb h16 h32 h48]
    dsimp only
    refine ⟨fun p hp => ?_, fun p hp => ?_,
      fun hnone => absurd hnone (by simp)⟩
    · have : p ∈ [basePath] := hp
      simpa using this
    · simp only [writtenPaths, List.filterMap_cons, List.filterMap_nil,
        List.mem_cons, List.not_mem_nil, or_false] at hp
      rcases hp with hp | hp <;> (subst hp; decide)
  rcases h128 : w.writable (savePath 128) with _ | _
  · rw [run_fail128 cfg w bs b hbs hb h16 h32 h48 h128]
    dsimp only
    refine ⟨fun p hp => ?_, fun p hp => ?_,
      fun hnone => absurd hnone (by simp)⟩
    · have : p ∈ [basePath] := hp
      simpa using this
    · simp only [writtenPaths, List.filterMap_cons, List.filterMap_nil,
        List.mem_cons, List.not_mem_nil, or_false] at hp
      rcases hp with hp | hp | hp <;> (subst hp; decide)
  rcases h64 : w.writable (savePath 64) with _ | _
  · rw [run_fail64 cfg w bs b hbs hb h16 h32 h48 h128 h64]
    dsimp only
    refine ⟨fun p hp => ?_, fun p hp => ?_,
      fun hnone => absurd hnone (by simp)⟩
    · have : p ∈ [basePath] := hp
      simpa using this
    · simp only [writtenPaths, List.filterMap_cons, List.filterMap_nil,
        List.mem_cons, List.not_mem_nil, or_false] at hp
      rcases hp with hp | hp | hp | hp <;> (subst hp; decide)
  · have hw : ∀ s ∈ execOrder, w.writable (savePath s) = true := by
      intro s hs; fin_cases hs <;> assumption
    rw [run_success cfg w bs b hbs hb hw]
    refine ⟨fun p hp => ?_, fun p hp => ?_, fun _ => ⟨rfl, fun p => ?_⟩⟩
    · have : p ∈ [basePath] := hp
      simpa using this
    · have hp' : p ∈ writtenPaths (successTrace cfg b) := hp
      simp only [successTrace, writtenPaths, List.filterMap_cons,
        List.filterMap_nil, List.mem_cons, List.not_mem_nil,
        or_false] at hp'
      rcases hp' with hp' | hp' | hp' | hp' | hp' <;> (subst hp'; decide)
    · show p ∈ writtenPaths (successTrace cfg b) ↔ p ∈ outputPaths
      simp only [successTrace, writtenPaths, List.filterMap_cons,
        List.filterMap_nil, List.mem_cons, List.not_mem_nil, or_false,
        outputPaths]
      tauto

theorem spec_c6_witness :
    (∀ p ∈ readPaths (createIcons cfgA worldA).2.2, p = basePath) ∧
    (∀ p ∈ writtenPaths (createIcons cfgA worldA).2.2,
      p ∈ outputPaths) ∧
    ((createIcons cfgA worldA).1 = none →
      readPaths (createIcons cfgA worldA).2.2 = [basePath] ∧
      ∀ p, p ∈ writtenPaths (createIcons cfgA worldA).2.2 ↔
        p ∈ outputPaths) :=
  spec_c6_io_footprint cfgA worldA

end CreateIcons
